import Mathlib

/-
Verification of the postman POP3 server (src/components/pop3/src/proto.rs and
src/components/pop3/src/lib.rs) against its natural-language specification.

Rust `String`/`&str` values are modelled as `List Char`; `usize` values are
modelled as `Nat`, with the 64-bit overflow bound made explicit where the
source's `usize::from_str` can overflow.  Fallible Rust functions returning
`anyhow::Result` are modelled with an explicit result type that also records
panics (`unwrap` on `None`, out-of-bounds indexing, `unimplemented!()`),
since several code paths of this skeleton panic.
-/

/-- Rust strings are modelled as lists of characters. -/
abbrev Str := List Char

/-- Embed a Lean string literal as a `Str`. -/
def str (s : String) : Str := s.data

/-- The CRLF line terminator `"\r\n"`. -/
def crlf : Str := str "\r\n"

/-- Result of running a piece of Rust code that may return `Err` (carrying an
`anyhow` message) or panic. -/
inductive PResult (α : Type) where
  | ok (val : α)
  | err (msg : Str)
  | panicked
  deriving DecidableEq, Repr

/-- The POP3 command keyword set, translated from `enum Command` in
src/components/pop3/src/proto.rs. -/
inductive Command where
  | APOP
  | AUTH
  | CAPA
  | DELE
  | LIST
  | NOOP
  | QUIT
  | PASS
  | RETR
  | RSET
  | STAT
  | TOP
  | UIDL
  | USER
  deriving DecidableEq, Repr

/-- Translated from `impl FromStr for Command` (proto.rs lines 644-666): a
case-sensitive exact match against the fourteen canonical keywords; any other
string yields `Err(anyhow!("invalid command: {}", s))`. -/
def Command.fromStr (s : Str) : Except Str Command :=
  if s = str "USER" then .ok .USER
  else if s = str "PASS" then .ok .PASS
  else if s = str "STAT" then .ok .STAT
  else if s = str "UIDL" then .ok .UIDL
  else if s = str "LIST" then .ok .LIST
  else if s = str "RETR" then .ok .RETR
  else if s = str "DELE" then .ok .DELE
  else if s = str "NOOP" then .ok .NOOP
  else if s = str "RSET" then .ok .RSET
  else if s = str "QUIT" then .ok .QUIT
  else if s = str "APOP" then .ok .APOP
  else if s = str "TOP" then .ok .TOP
  else if s = str "AUTH" then .ok .AUTH
  else if s = str "CAPA" then .ok .CAPA
  else .error (str "invalid command: " ++ s)

/-- Translated from `impl Display for Command` (proto.rs lines 668-689). -/
def Command.render (c : Command) : Str :=
  match c with
  | .USER => str "USER"
  | .PASS => str "PASS"
  | .STAT => str "STAT"
  | .UIDL => str "UIDL"
  | .LIST => str "LIST"
  | .RETR => str "RETR"
  | .DELE => str "DELE"
  | .NOOP => str "NOOP"
  | .RSET => str "RSET"
  | .QUIT => str "QUIT"
  | .APOP => str "APOP"
  | .TOP => str "TOP"
  | .AUTH => str "AUTH"
  | .CAPA => str "CAPA"

/-- The canonical fourteen-keyword set named by the spec. -/
def canonicalKeywords : List Str :=
  [str "USER", str "PASS", str "APOP", str "AUTH", str "CAPA", str "STAT",
   str "LIST", str "UIDL", str "RETR", str "DELE", str "NOOP", str "RSET",
   str "TOP", str "QUIT"]

/-- Model of Rust `usize::from_str` (as used by `Request::from_str` for
message ids and line counts): an optional leading `+` sign followed by one or
more ASCII digits; the empty string, a lone sign, any non-digit character, and
values not below `2^64` are errors, with the standard library's
`ParseIntError` messages. -/
def parseUsize (s : Str) : PResult Nat :=
  if s = [] then .err (str "cannot parse integer from empty string")
  else
    let digits := match s with
      | '+' :: rest => rest
      | _ => s
    if digits = [] then .err (str "invalid digit found in string")
    else if digits.all (fun c => c.isDigit) then
      let n := digits.foldl (fun a c => a * 10 + (c.toNat - ('0').toNat)) 0
      if n < 18446744073709551616 then .ok n
      else .err (str "number too large to fit in target type")
    else .err (str "invalid digit found in string")

example : parseUsize (str "120") = .ok 120 := by decide
example : parseUsize (str "+7") = .ok 7 := by decide
example : parseUsize (str "a") = .err (str "invalid digit found in string") := by decide
example : Command.fromStr (str "STAT") = .ok .STAT := by rfl
example : Command.fromStr (str "stat") =
    .error (str "invalid command: stat") := by rfl

/-- A decoded client line, translated from `enum Request` (proto.rs lines
733-749). -/
inductive Request where
  | APOP (username digest : Str)
  | AUTH (method : Option Str)
  | CAPA
  | DELE (id : Nat)
  | LIST (id : Option Nat)
  | NOOP
  | PASS (password : Str)
  | QUIT
  | RETR (id : Nat)
  | RSET
  | STAT
  | TOP (id lines : Nat)
  | UIDL (id : Option Nat)
  | USER (username : Str)
  deriving DecidableEq, Repr

/-- The `anyhow!("invalid request for {}: {}", cmd, v)` message used by every
arity check in `Request::from_str` (`v` is the line with its CRLF already
stripped). -/
def badReq (cmd : Command) (line : Str) : Str :=
  str "invalid request for " ++ Command.render cmd ++ str ": " ++ line

/-- Translated from `Request::from_str` (proto.rs lines 752-878).

* `v.strip_suffix("\r\n").unwrap()` panics when the line has no trailing CRLF
  (`strip_suffix` returns `None`); modelled by `removeSuf` below returning
  `none` and the `.panicked` branch.
* `v.split(" ").filter(|s| !s.is_empty())` is `List.splitOn ' '` followed by
  discarding empty tokens.
* `vs[0]` panics (index out of bounds) when every token is empty, i.e. `vs`
  is the empty list.
* each arm checks the exact token count required by its command and otherwise
  returns `Err(anyhow!("invalid request for {}: {}", cmd, v))`; numeric
  arguments go through `usize::from_str` whose error is propagated by `?`. -/
def Request.fromStr (v : Str) : PResult Request :=
  if crlf.isSuffixOf v then
    let v1 : Str := v.take (v.length - 2)
    let vs := (List.splitOn ' ' v1).filter (fun t => t ≠ [])
    match vs with
    | [] => .panicked
    | w :: _ =>
      match Command.fromStr w with
      | .error e => .err e
      | .ok cmd =>
        match cmd with
        | .USER =>
          match vs with
          | [_, a] => .ok (.USER a)
          | _ => .err (badReq cmd v1)
        | .PASS =>
          match vs with
          | [_, a] => .ok (.PASS a)
          | _ => .err (badReq cmd v1)
        | .STAT =>
          match vs with
          | [_] => .ok .STAT
          | _ => .err (badReq cmd v1)
        | .UIDL =>
          match vs with
          | [_] => .ok (.UIDL none)
          | [_, a] =>
            match parseUsize a with
            | .ok n => .ok (.UIDL (some n))
            | .err e => .err e
            | .panicked => .panicked
          | _ => .err (badReq cmd v1)
        | .LIST =>
          match vs with
          | [_] => .ok (.LIST none)
          | [_, a] =>
            match parseUsize a with
            | .ok n => .ok (.LIST (some n))
            | .err e => .err e
            | .panicked => .panicked
          | _ => .err (badReq cmd v1)
        | .RETR =>
          match vs with
          | [_, a] =>
            match parseUsize a with
            | .ok n => .ok (.RETR n)
            | .err e => .err e
            | .panicked => .panicked
          | _ => .err (badReq cmd v1)
        | .DELE =>
          match vs with
          | [_, a] =>
            match parseUsize a with
            | .ok n => .ok (.DELE n)
            | .err e => .err e
            | .panicked => .panicked
          | _ => .err (badReq cmd v1)
        | .NOOP =>
          match vs with
          | [_] => .ok .NOOP
          | _ => .err (badReq cmd v1)
        | .RSET =>
          match vs with
          | [_] => .ok .RSET
          | _ => .err (badReq cmd v1)
        | .QUIT =>
          match vs with
          | [_] => .ok .QUIT
          | _ => .err (badReq cmd v1)
        | .TOP =>
          match vs with
          | [_, a, b] =>
            match parseUsize a with
            | .ok id =>
              match parseUsize b with
              | .ok lines => .ok (.TOP id lines)
              | .err e => .err e
              | .panicked => .panicked
            | .err e => .err e
            | .panicked => .panicked
          | _ => .err (badReq cmd v1)
        | .APOP =>
          match vs with
          | [_, a, b] => .ok (.APOP a b)
          | _ => .err (badReq cmd v1)
        | .AUTH =>
          match vs with
          | [_] => .ok (.AUTH none)
          | [_, a] => .ok (.AUTH (some a))
          | _ => .err (badReq cmd v1)
        | .CAPA =>
          match vs with
          | [_] => .ok .CAPA
          | _ => .err (badReq cmd v1)
  else .panicked

example : Request.fromStr (str "STAT\r\n") = .ok .STAT := by decide
example : Request.fromStr (str "DELE 1\r\n") = .ok (.DELE 1) := by decide
example : Request.fromStr (str "TOP 1 10\r\n") = .ok (.TOP 1 10) := by decide
example : Request.fromStr (str "LIST\r\n") = .ok (.LIST none) := by decide
example : Request.fromStr (str "USER  mrose\r\n") = .ok (.USER (str "mrose")) := by decide
example : Request.fromStr (str "FOO\r\n") =
    .err (str "invalid command: FOO") := by decide
example : Request.fromStr (str "STAT 1\r\n") =
    .err (str "invalid request for STAT: STAT 1") := by decide
example : Request.fromStr (str "DELE x\r\n") =
    .err (str "invalid digit found in string") := by decide
example : Request.fromStr (str "STAT") = .panicked := by decide
example : Request.fromStr (str "\r\n") = .panicked := by decide

/-- Translated from `struct MessageMeta` (proto.rs lines 1114-1118): the code
stores only `id` and `size` (it has no `deleted` flag and no `uniqueId`). -/
structure MessageMeta where
  id : Nat
  size : Nat
  deriving DecidableEq, Repr

/-- Translated from `enum ListResponse` (proto.rs lines 937-944). -/
inductive ListResponse where
  | Single (m : MessageMeta)
  | All (count : Nat) (messages : List MessageMeta)
  deriving DecidableEq, Repr

/-- Translated from `enum AuthResponse` (proto.rs lines 946-949). -/
inductive AuthResponse where
  | All (methods : List Str)
  deriving DecidableEq, Repr

/-- Translated from `enum Response` (proto.rs lines 919-935). -/
inductive Response where
  | AUTH (v : AuthResponse)
  | CAPA (caps : List Str)
  | DELE
  | GREET (msg : Str)
  | LIST (v : ListResponse)
  | NOOP
  | PASS (msg : Str)
  | QUIT
  | RETR (body : Str)
  | STAT (count size : Nat)
  | RSET
  | USER (msg : Str)
  | ERR (msg : Str)
  deriving DecidableEq, Repr

/-- Decimal rendering of a `usize`, as Rust's `Display` for integers. -/
def natToStr (n : Nat) : Str := (Nat.repr n).data

/-- The scan-listing line body written for one message by the `LIST` arm:
`write!(&mut f, "{} {}\r\n", v.id, v.size)` without its CRLF. -/
def scanEntry (m : MessageMeta) : Str :=
  natToStr m.id ++ str " " ++ natToStr m.size

/-- Translated from `Response::to_string` (proto.rs lines 952-1000).  The
source returns `Result<String>` but `write!` into a `String` is infallible,
so the function is modelled as total.  Each `for` loop appending
`"{line}\r\n"` becomes a `List.foldl`. -/
def Response.render (resp : Response) : Str :=
  match resp with
  | .AUTH (.All ms) =>
    let f := str "+OK " ++ natToStr ms.length ++ str " auth methods" ++ crlf
    let f := ms.foldl (fun acc m => acc ++ m ++ crlf) f
    f ++ str ".\r\n"
  | .CAPA caps =>
    let f := str "+OK Capability list follows" ++ crlf
    let f := caps.foldl (fun acc c => acc ++ c ++ crlf) f
    f ++ str ".\r\n"
  | .DELE => str "+OK" ++ crlf
  | .GREET m => str "+OK " ++ m ++ crlf
  | .LIST (.All cnt ms) =>
    let f := str "+OK " ++ natToStr cnt ++ str " messages" ++ crlf
    let f := ms.foldl (fun acc m => acc ++ scanEntry m ++ crlf) f
    f ++ str ".\r\n"
  | .LIST (.Single m) =>
    str "+OK " ++ natToStr m.id ++ str " " ++ natToStr m.size ++ crlf
  | .NOOP => str "+OK" ++ crlf
  | .PASS m => str "+OK " ++ m ++ crlf
  | .QUIT => str "+OK" ++ crlf
  | .RETR body => str "+OK" ++ crlf ++ body ++ str ".\r\n"
  | .STAT cnt sz => str "+OK " ++ natToStr cnt ++ str " " ++ natToStr sz ++ crlf
  | .RSET => str "+OK" ++ crlf
  | .USER m => str "+OK " ++ m ++ crlf
  | .ERR m => str "-ERR " ++ m ++ crlf

example : Response.render (.STAT 2 320) = str "+OK 2 320\r\n" := by decide
example : Response.render (.LIST (.All 0 [])) = str "+OK 0 messages\r\n.\r\n" := by decide
example : Response.render (.LIST (.All 2 [⟨1, 120⟩, ⟨2, 200⟩])) =
    str "+OK 2 messages\r\n1 120\r\n2 200\r\n.\r\n" := by decide

/-- Translated from the request dispatch in `Handler::run` (lib.rs lines
208-233): the match on the decoded request.  USER/PASS reply with a canned
positive response carrying an empty message; STAT replies with the hardcoded
`Response::STAT { count: 10, size: 8 }`; CAPA replies with the static
capability list; `AUTH` with no argument replies with an empty method list;
every other arm is `unimplemented!()`, which panics. -/
def dispatch (req : Request) : PResult Response :=
  match req with
  | .USER _ => .ok (.USER (str ""))
  | .PASS _ => .ok (.PASS (str ""))
  | .STAT => .ok (.STAT 10 8)
  | .UIDL _ => .panicked
  | .LIST _ => .panicked
  | .RETR _ => .panicked
  | .DELE _ => .panicked
  | .NOOP => .panicked
  | .RSET => .panicked
  | .QUIT => .panicked
  | .AUTH none => .ok (.AUTH (.All []))
  | .AUTH (some _) => .panicked
  | .CAPA => .ok (.CAPA [str "TOP", str "USER", str "UIDL"])
  | .TOP _ _ => .panicked
  | .APOP _ _ => .panicked

/-- What one iteration of the read loop in `Handler::run` (lib.rs lines
199-237) does with the line it read. -/
inductive HandlerOutcome where
  | continueEmpty
  | reply (resp : Response)
  | errExit (msg : Str)
  | panicked
  deriving DecidableEq, Repr

/-- Translated from the body of the read loop in `Handler::run` (lib.rs lines
199-237): an empty line is skipped (`continue`); `Request::from_str(s)?`
propagates a decode error, returning `Err` from `Handler::run` and ending the
connection; otherwise the request is dispatched and the response written
(write errors are discarded by the source, which omits `?` on the final
`w.write`), after which the loop continues.  The body never reads
`self.shutdown`, `self.db` or `self.limit_connections`. -/
def handlerStep (line : Str) : HandlerOutcome :=
  if line = [] then .continueEmpty
  else
    match Request.fromStr line with
    | .panicked => .panicked
    | .err m => .errExit m
    | .ok req =>
      match dispatch req with
      | .ok resp => .reply resp
      | .err m => .errExit m
      | .panicked => .panicked

/-- `Handler::run`, viewed with the shutdown flag made explicit: the loop
body contains no use of `self.shutdown`, so the outcome of an iteration is
the same whether or not shutdown has been signaled. -/
def handlerStepUnderShutdown (_shutdownSignaled : Bool) (line : Str) : HandlerOutcome :=
  handlerStep line

example : handlerStep (str "FOO\r\n") =
    .errExit (str "invalid command: FOO") := by decide
example : handlerStep (str "QUIT\r\n") = .panicked := by decide
example : handlerStep (str "STAT\r\n") = .reply (.STAT 10 8) := by decide

/-- Rust `v.split("\r\n")` as used by `Response::from_str`: split at each
leftmost non-overlapping occurrence of the two-character separator CRLF,
scanning left to right. -/
def splitCrlf : Str → List Str
  | [] => [[]]
  | '\r' :: '\n' :: rest => [] :: splitCrlf rest
  | c :: rest =>
    match splitCrlf rest with
    | [] => [[c]]
    | t :: ts => (c :: t) :: ts

example : splitCrlf (str "+OK a\r\nb\r\n") = [str "+OK a", str "b", []] := by decide
example : splitCrlf (str "ab") = [str "ab"] := by decide
example : splitCrlf (str "\r\r\n") = [str "\r", []] := by decide

/-- Rust `str::strip_prefix`: `some` of the remainder when `pre` is a prefix,
otherwise `none`. -/
def removePre (pre l : Str) : Option Str :=
  if pre.isPrefixOf l then some (l.drop pre.length) else none

/-- Rust `str::strip_suffix`: `some` of the front when `suf` is a suffix,
otherwise `none`. -/
def removeSuf (suf l : Str) : Option Str :=
  if suf.isSuffixOf l then some (l.take (l.length - suf.length)) else none

/-- The `anyhow!("invalid response for {}: {}", cmd, v)` message used
throughout `Response::from_str`. -/
def badResp (cmd : Command) (v : Str) : Str :=
  str "invalid response for " ++ Command.render cmd ++ str ": " ++ v

/-- Translated from the client-side decoder `Response::from_str` (proto.rs
lines 1002-1097).

* The initial guard is the source's
  `if !v.starts_with("-ERR") || !v.starts_with("+OK") { return Err(..) }`,
  with the `||` kept exactly as written.
* The `-ERR` branch unwraps `strip_prefix("-ERR ")` and
  `strip_suffix("\r\n")`; a failed unwrap panics.
* The `+OK` side splits on `"\r\n"`, discards empty pieces, checks the piece
  count per command, unwraps `strip_prefix("+OK ")` where the source does,
  parses STAT's numeric fields with `usize::from_str`, and hits
  `unimplemented!()` (a panic) for UIDL/LIST/RETR/TOP/APOP and, after the
  count check, for AUTH and CAPA.  The RSET arm constructs `Response::RETR`
  exactly as the source does. -/
def Response.fromStr (v : Str) (cmd : Command) : PResult Response :=
  if !((str "-ERR").isPrefixOf v) || !((str "+OK").isPrefixOf v) then
    .err (badResp cmd v)
  else if (str "-ERR").isPrefixOf v then
    match removePre (str "-ERR ") v with
    | none => .panicked
    | some v1 =>
      match removeSuf crlf v1 with
      | none => .panicked
      | some v2 => .ok (.ERR v2)
  else
    let vs := (splitCrlf v).filter (fun t => t ≠ [])
    match cmd with
    | .USER =>
      match vs with
      | [l0] =>
        match removePre (str "+OK ") l0 with
        | none => .panicked
        | some m => .ok (.USER m)
      | _ => .err (badResp cmd v)
    | .PASS =>
      match vs with
      | [l0] =>
        match removePre (str "+OK ") l0 with
        | none => .panicked
        | some m => .ok (.PASS m)
      | _ => .err (badResp cmd v)
    | .STAT =>
      match vs with
      | [l0] =>
        match List.splitOn ' ' l0 with
        | [_, a, b] =>
          match parseUsize a with
          | .ok cnt =>
            match parseUsize b with
            | .ok sz => .ok (.STAT cnt sz)
            | .err e => .err e
            | .panicked => .panicked
          | .err e => .err e
          | .panicked => .panicked
        | _ => .err (badResp cmd v)
      | _ => .err (badResp cmd v)
    | .UIDL => .panicked
    | .LIST => .panicked
    | .RETR => .panicked
    | .DELE =>
      match vs with
      | [_] => .ok .DELE
      | _ => .err (badResp cmd v)
    | .NOOP =>
      match vs with
      | [_] => .ok .NOOP
      | _ => .err (badResp cmd v)
    | .RSET =>
      match vs with
      | [l0] =>
        match removePre (str "+OK ") l0 with
        | none => .panicked
        | some m => .ok (.RETR m)
      | _ => .err (badResp cmd v)
    | .QUIT =>
      match vs with
      | [_] => .ok .QUIT
      | _ => .err (badResp cmd v)
    | .TOP => .panicked
    | .APOP => .panicked
    | .AUTH =>
      match vs with
      | [_] => .panicked
      | _ => .err (badResp cmd v)
    | .CAPA =>
      match vs with
      | [_] => .panicked
      | _ => .err (badResp cmd v)

example : Response.fromStr (str "+OK 2 320\r\n") .STAT =
    .err (badResp .STAT (str "+OK 2 320\r\n")) := by decide
example : Response.fromStr (str "-ERR nope\r\n") .STAT =
    .err (badResp .STAT (str "-ERR nope\r\n")) := by decide

/-- `const MAX_CONNECTIONS: usize = 1024` (lib.rs line 52): the admission
semaphore's initial permit count. -/
def MAX_CONNECTIONS : Nat := 1024

/-- Translated from `self.limit_connections.acquire().await.forget()` in
`Listener::run` (lib.rs line 122): one permit is taken from the semaphore and
forgotten, so dropping the permit value will not return it. -/
def acquireAndForget (permits : Nat) : Nat := permits - 1

/-- Net effect of a finished connection handler on the semaphore's permit
count, translated from `impl Handler` (lib.rs lines 175-241): neither
`Handler::run` nor any `Drop` impl calls `add_permits` (or touches
`self.limit_connections` at all), so the count is left unchanged. -/
def handlerPermitRelease (permits : Nat) : Nat := permits

/-- Which shared resources a spawned handler task holds, translated from
`struct Handler` (lib.rs lines 65-72) and its construction in `Listener::run`
(lib.rs lines 126-137): a sled handle, the socket, a clone of the
`limit_connections` semaphore `Arc`, and a `Shutdown` wrapping a subscription
to `notify_shutdown` — and no clone of the `shutdown_complete_tx` mpsc
sender. -/
structure HandlerRes where
  holdsDb : Bool
  holdsConnection : Bool
  holdsLimitConnections : Bool
  holdsShutdownReceiver : Bool
  holdsShutdownCompleteSender : Bool
  deriving DecidableEq, Repr

/-- The resources given to each handler spawned by `Listener::run`. -/
def spawnedHandler : HandlerRes :=
  { holdsDb := true
    holdsConnection := true
    holdsLimitConnections := true
    holdsShutdownReceiver := true
    holdsShutdownCompleteSender := false }

/-- Number of `shutdown_complete_tx` clones held by a set of live handler
tasks. -/
def completionSenders (handlers : List HandlerRes) : Nat :=
  handlers.foldl
    (fun a h => a + (if h.holdsShutdownCompleteSender then 1 else 0)) 0

/-- Semantics of `shutdown_complete_rx.recv().await` after `run` (lib.rs
lines 102-112) has dropped its own `shutdown_complete_tx`: an mpsc `recv`
blocks only while at least one sender is still alive; with zero senders it
returns `None` immediately. -/
def recvWaitsForSenders (senders : Nat) : Bool := senders != 0

/-- One accept attempt's outcome at the socket, the input behaviour of
`Listener::accept`. -/
inductive AcceptOutcome where
  | ok
  | err
  deriving DecidableEq, Repr

/-- The observable result of `Listener::accept` (lib.rs lines 149-172):
whether it returned a socket (`success = true`) or propagated the error, and
the exact sequence of backoff durations it slept, in order. -/
structure AcceptRun where
  success : Bool
  sleeps : List Nat
  deriving DecidableEq, Repr

/-- Translated from the retry loop of `Listener::accept` (lib.rs lines
149-172), with the attempt index and current backoff explicit: a successful
accept returns the socket at once; a failed accept returns the error if the
backoff already exceeds 64, and otherwise sleeps for the current backoff and
doubles it.  Totality of this definition is exactly the loop's termination on
every input behaviour: the backoff doubles on every retained iteration, so
the recursion is bounded. -/
def acceptGo (s : Nat → AcceptOutcome) (i backoff : Nat) (h : 1 ≤ backoff) : AcceptRun :=
  match s i with
  | .ok => ⟨true, []⟩
  | .err =>
    if h64 : backoff > 64 then ⟨false, []⟩
    else
      let r := acceptGo s (i + 1) (2 * backoff) (by omega)
      ⟨r.success, backoff :: r.sleeps⟩
  termination_by 129 - backoff
  decreasing_by omega

/-- `Listener::accept` itself: the loop starts with `backoff = 1` at the
first attempt. -/
def acceptLoop (s : Nat → AcceptOutcome) : AcceptRun := acceptGo s 0 1 (by omega)

/-- A list of lines joined with CRLF appended to each, the shape of the data
block of a dot-terminated multi-line response. -/
def linesJoin (ls : List Str) : Str := (ls.map (fun l => l ++ crlf)).flatten

theorem foldl_lines {α : Type} (g : α → Str) (ls : List α) (init : Str) :
    ls.foldl (fun acc x => acc ++ g x ++ crlf) init = init ++ linesJoin (ls.map g) := by
  induction ls generalizing init with
  | nil => simp [linesJoin]
  | cons a t ih =>
    simp only [List.foldl_cons, List.map_cons, linesJoin, List.flatten_cons, ih,
      List.map_map]
    simp [linesJoin, List.append_assoc, Function.comp]

/-- C1: the spec says a command in the wrong state or with a bad message id
draws a negative reply with the connection kept open, and that only QUIT or
unrecoverable I/O ends the session.  The code instead: a line that fails to
decode makes `Handler::run` return `Err` through `Request::from_str(s)?`,
terminating the connection with no reply sent; the QUIT arm (like
DELE/NOOP/RSET/UIDL/LIST/RETR/TOP/APOP) is `unimplemented!()` and panics
instead of closing the session with a positive reply. -/
theorem C1_bad_line_terminates_handler :
    handlerStep (str "FOO\r\n") = .errExit (str "invalid command: FOO") ∧
    handlerStep (str "QUIT\r\n") = .panicked ∧
    handlerStep (str "DELE 1\r\n") = .panicked := by
  refine ⟨?_, ?_, ?_⟩ <;> decide

/-- C2: the spec says request decoding is total and classifies a line with no
trailing CRLF as a `MalformedLine` error.  The code instead panics on such a
line (`strip_suffix("\r\n").unwrap()`), and also panics via out-of-bounds
`vs[0]` on a line whose tokens are all empty, such as the bare `"\r\n"`
line. -/
theorem C2_decode_panics_without_crlf :
    Request.fromStr (str "STAT") = .panicked ∧
    Request.fromStr (str "\r\n") = .panicked := by
  refine ⟨?_, ?_⟩ <;> decide

/-- C3: the spec requires byte-stuffing, a body line starting with `.` being
sent with a second `.` prepended.  The RETR arm of `Response::to_string`
writes the body verbatim: a body consisting of the single line `.` is
transmitted unchanged (making it indistinguishable from the terminator), not
as the stuffed `..` line. -/
theorem C3_retr_body_not_byte_stuffed :
    Response.render (.RETR (str ".\r\n")) = str "+OK\r\n.\r\n.\r\n" ∧
    Response.render (.RETR (str ".\r\n")) ≠ str "+OK\r\n..\r\n.\r\n" := by
  refine ⟨?_, ?_⟩ <;> decide

/-- C4: the spec says STAT reports the count and total size of the
non-deleted messages, e.g. `+OK 2 320\r\n` for the mailbox {1:120, 2:200}.
The STAT arm of `Handler::run` replies with the hardcoded
`Response::STAT { count: 10, size: 8 }` without consulting any mailbox, so
the wire reply is always `+OK 10 8\r\n`. -/
theorem C4_stat_reply_hardcoded :
    dispatch Request.STAT = .ok (.STAT 10 8) ∧
    Response.render (.STAT 10 8) = str "+OK 10 8\r\n" ∧
    Response.render (.STAT 10 8) ≠ str "+OK 2 320\r\n" := by
  refine ⟨?_, ?_, ?_⟩ <;> decide

/-- C5: the spec says the admission slot taken for an accepted connection is
released exactly once by the handler when it finishes, restoring the permit
count.  The code `forget()`s the acquired permit and the handler never calls
`add_permits`, so after a connection is accepted and its handler finishes the
semaphore has permanently lost one permit (1024 becomes 1023). -/
theorem C5_admission_slot_never_released :
    handlerPermitRelease (acquireAndForget MAX_CONNECTIONS) = 1023 ∧
    handlerPermitRelease (acquireAndForget MAX_CONNECTIONS) ≠ MAX_CONNECTIONS := by
  refine ⟨?_, ?_⟩ <;> decide

/-- C6: the spec says that on shutdown every live handler is notified to
close gracefully and `run` waits for every spawned handler to signal
completion.  In the code no handler holds a clone of `shutdown_complete_tx`
(the `Handler` struct has no such field), so once `run` drops its own sender
the `recv` has zero live senders and returns `None` immediately, however many
handlers are still mid-session; and the handler read loop never consults
`self.shutdown`, so its behaviour is identical whether or not shutdown was
signaled. -/
theorem C6_shutdown_drain_vacuous :
    (∀ n : Nat, completionSenders (List.replicate n spawnedHandler) = 0) ∧
    (∀ n : Nat,
      recvWaitsForSenders (completionSenders (List.replicate n spawnedHandler)) = false) ∧
    (∀ (sd : Bool) (line : Str), handlerStepUnderShutdown sd line = handlerStep line) := by
  have key : ∀ (n a : Nat),
      (List.replicate n spawnedHandler).foldl
        (fun a h => a + (if h.holdsShutdownCompleteSender then 1 else 0)) a = a := by
    intro n
    induction n with
    | zero => intro a; rfl
    | succ m ih => intro a; rw [List.replicate_succ, List.foldl_cons]; exact ih _
  refine ⟨fun n => key n 0, fun n => ?_, fun _ _ => rfl⟩
  have h0 : completionSenders (List.replicate n spawnedHandler) = 0 := key n 0
  rw [h0]
  rfl

/-- C7: every multi-line response form of `Response::to_string` — CAPA,
LIST-all, the AUTH method list, RETR — renders as its status line, then the
data lines each followed by CRLF, then the lone `.\r\n` terminator line (for
RETR the body is, per the protocol, a sequence of CRLF-terminated lines);
and LIST over an empty non-deleted message set renders exactly as
`+OK 0 messages\r\n.\r\n`. -/
theorem C7_multiline_dot_terminated :
    (∀ caps : List Str, Response.render (.CAPA caps) =
      str "+OK Capability list follows" ++ crlf ++ linesJoin caps ++ str ".\r\n") ∧
    (∀ ms : List Str, Response.render (.AUTH (.All ms)) =
      str "+OK " ++ natToStr ms.length ++ str " auth methods" ++ crlf ++
        linesJoin ms ++ str ".\r\n") ∧
    (∀ (cnt : Nat) (msgs : List MessageMeta), Response.render (.LIST (.All cnt msgs)) =
      str "+OK " ++ natToStr cnt ++ str " messages" ++ crlf ++
        linesJoin (msgs.map scanEntry) ++ str ".\r\n") ∧
    (∀ bodyLines : List Str, Response.render (.RETR (linesJoin bodyLines)) =
      str "+OK" ++ crlf ++ linesJoin bodyLines ++ str ".\r\n") ∧
    Response.render (.LIST (.All 0 [])) = str "+OK 0 messages\r\n.\r\n" := by
  refine ⟨fun caps => ?_, fun ms => ?_, fun cnt msgs => ?_, fun bodyLines => rfl, by decide⟩
  · show (caps.foldl (fun acc c => acc ++ c ++ crlf)
        (str "+OK Capability list follows" ++ crlf)) ++ str ".\r\n" = _
    rw [foldl_lines (fun c => c) caps]
    simp [List.map_id_fun, List.append_assoc]
  · show (ms.foldl (fun acc m => acc ++ m ++ crlf)
        (str "+OK " ++ natToStr ms.length ++ str " auth methods" ++ crlf)) ++ str ".\r\n" = _
    rw [foldl_lines (fun c => c) ms]
    simp [List.map_id_fun, List.append_assoc]
  · show (msgs.foldl (fun acc m => acc ++ scanEntry m ++ crlf)
        (str "+OK " ++ natToStr cnt ++ str " messages" ++ crlf)) ++ str ".\r\n" = _
    rw [foldl_lines scanEntry msgs]

/-- C8: command keyword recognition is a case-sensitive exact match: parsing
succeeds exactly on the fourteen canonical upper-case keywords, and parsing
the rendered keyword of any `Command` value gives that value back. -/
theorem C8_command_keyword_roundtrip :
    (∀ c : Command, Command.fromStr (Command.render c) = .ok c) ∧
    (∀ s : Str, (∃ c, Command.fromStr s = .ok c) ↔ s ∈ canonicalKeywords) := by
  constructor
  · intro c; cases c <;> rfl
  · intro s
    constructor
    · intro hex
      by_contra hmem
      have hne : ∀ k ∈ canonicalKeywords, ¬ (s = k) :=
        fun k hk he => hmem (he ▸ hk)
      have herr : Command.fromStr s = .error (str "invalid command: " ++ s) := by
        unfold Command.fromStr
        rw [if_neg (hne (str "USER") (by decide)),
          if_neg (hne (str "PASS") (by decide)),
          if_neg (hne (str "STAT") (by decide)),
          if_neg (hne (str "UIDL") (by decide)),
          if_neg (hne (str "LIST") (by decide)),
          if_neg (hne (str "RETR") (by decide)),
          if_neg (hne (str "DELE") (by decide)),
          if_neg (hne (str "NOOP") (by decide)),
          if_neg (hne (str "RSET") (by decide)),
          if_neg (hne (str "QUIT") (by decide)),
          if_neg (hne (str "APOP") (by decide)),
          if_neg (hne (str "TOP") (by decide)),
          if_neg (hne (str "AUTH") (by decide)),
          if_neg (hne (str "CAPA") (by decide))]
      obtain ⟨c, hc⟩ := hex
      rw [herr] at hc
      exact Except.noConfusion hc
    · intro hmem
      simp only [canonicalKeywords, List.mem_cons, List.not_mem_nil, or_false] at hmem
      rcases hmem with h|h|h|h|h|h|h|h|h|h|h|h|h|h <;> subst h <;> exact ⟨_, rfl⟩

/-- C9: the accept retry loop of `Listener::accept` terminates on every input
behaviour (the model `acceptGo` is a total function, its recursion bounded by
the doubling backoff); under persistent accept failure it sleeps exactly the
backoff schedule 1, 2, 4, 8, 16, 32, 64 — seven sleeps, starting at 1 and
doubling — and then, the backoff having exceeded 64, gives up and propagates
the error. -/
theorem acceptGo_err_step (s : Nat → AcceptOutcome) (i b : Nat) (hb : 1 ≤ b)
    (hb2 : 1 ≤ 2 * b) (hb64 : ¬ b > 64) (hsi : s i = .err) :
    acceptGo s i b hb = ⟨(acceptGo s (i + 1) (2 * b) hb2).success,
      b :: (acceptGo s (i + 1) (2 * b) hb2).sleeps⟩ := by
  conv_lhs => rw [acceptGo]
  rw [hsi]
  simp [hb64]

theorem acceptGo_err_stop (s : Nat → AcceptOutcome) (i b : Nat) (hb : 1 ≤ b)
    (hb64 : b > 64) (hsi : s i = .err) :
    acceptGo s i b hb = ⟨false, []⟩ := by
  conv_lhs => rw [acceptGo]
  rw [hsi]
  simp [hb64]

theorem C9_accept_backoff_bounded (s : Nat → AcceptOutcome)
    (h : ∀ i, s i = .err) :
    acceptLoop s = ⟨false, [1, 2, 4, 8, 16, 32, 64]⟩ := by
  unfold acceptLoop
  rw [acceptGo_err_step s 0 1 (by omega) (by omega) (by omega) (h 0)]
  rw [acceptGo_err_step s 1 2 (by omega) (by omega) (by omega) (h 1)]
  rw [acceptGo_err_step s 2 4 (by omega) (by omega) (by omega) (h 2)]
  rw [acceptGo_err_step s 3 8 (by omega) (by omega) (by omega) (h 3)]
  rw [acceptGo_err_step s 4 16 (by omega) (by omega) (by omega) (h 4)]
  rw [acceptGo_err_step s 5 32 (by omega) (by omega) (by omega) (h 5)]
  rw [acceptGo_err_step s 6 64 (by omega) (by omega) (by omega) (h 6)]
  rw [acceptGo_err_stop s 7 128 (by omega) (by omega) (h 7)]

theorem C9_accept_backoff_bounded_witness :
    (∀ i : Nat, (fun _ : Nat => AcceptOutcome.err) i = AcceptOutcome.err) ∧
    acceptLoop (fun _ : Nat => AcceptOutcome.err) = ⟨false, [1, 2, 4, 8, 16, 32, 64]⟩ :=
  ⟨fun _ => rfl,
    C9_accept_backoff_bounded (fun _ => AcceptOutcome.err) (fun _ => rfl)⟩

/-- C10: the guard at the top of the client-side decoder `Response::from_str`
tests `!v.starts_with("-ERR") || !v.starts_with("+OK")`, which no string can
falsify (none starts with both), so every input — including well-formed
`+OK ...\r\n` and `-ERR ...\r\n` responses — is rejected with the
`invalid response` error and no `Response` is ever decoded. -/
theorem C10_response_decoder_always_errors (v : Str) (cmd : Command) :
    Response.fromStr v cmd = .err (badResp cmd v) := by
  have hguard : (!((str "-ERR").isPrefixOf v) || !((str "+OK").isPrefixOf v)) = true := by
    match v with
    | [] => rfl
    | c :: cs =>
      by_cases hc : c = '-'
      · subst hc
        have h2 : (str "+OK").isPrefixOf ('-' :: cs) = false := rfl
        rw [h2, Bool.not_false, Bool.or_true]
      · have h1 : (('-' : Char) == c) = false :=
          beq_eq_false_iff_ne.mpr (fun hh => hc hh.symm)
        have h2 : (str "-ERR").isPrefixOf (c :: cs) = false := by
          show ((('-' : Char) == c) && (str "ERR").isPrefixOf cs) = false
          rw [h1, Bool.false_and]
        rw [h2, Bool.not_false, Bool.true_or]
  unfold Response.fromStr
  simp only [hguard]
  rfl
